import Mathlib

/-! Shallow embedding of `src/streamlit_app.py`: the weathercode lookup, the
Celsius-to-Fahrenheit converter, the forecast fetch / normalize pipeline of
`get_weather`, the error handling of `main`, and the time-boxed memoization
cache wrapping `get_weather`.  Timestamps are modelled as integers already
localized to the fixed Asia/Seoul zone; temperatures and wind speeds as
rationals. -/

/-- Lookup of `weathercode_to_text` (source lines 14-35): maps an integer
weather code to a label, defaulting to "Unknown" for any code not in the
dictionary. -/
def weathercode_to_text (code : Int) : String :=
  if code = 0 then "Clear"
  else if code = 1 then "Mainly clear"
  else if code = 2 then "Partly cloudy"
  else if code = 3 then "Overcast"
  else if code = 45 then "Fog"
  else if code = 48 then "Depositing rime fog"
  else if code = 51 then "Drizzle: Light"
  else if code = 53 then "Drizzle: Moderate"
  else if code = 55 then "Drizzle: Dense"
  else if code = 61 then "Rain: Slight"
  else if code = 63 then "Rain: Moderate"
  else if code = 65 then "Rain: Heavy"
  else if code = 71 then "Snow: Slight"
  else if code = 73 then "Snow: Moderate"
  else if code = 75 then "Snow: Heavy"
  else if code = 80 then "Rain showers: Slight"
  else if code = 81 then "Rain showers: Moderate"
  else if code = 82 then "Rain showers: Violent"
  else "Unknown"

/-- The closed set of known codes with their labels, exactly the dictionary of
`weathercode_to_text` in the source. -/
def knownPairs : List (Int × String) :=
  [(0, "Clear"), (1, "Mainly clear"), (2, "Partly cloudy"), (3, "Overcast"),
   (45, "Fog"), (48, "Depositing rime fog"),
   (51, "Drizzle: Light"), (53, "Drizzle: Moderate"), (55, "Drizzle: Dense"),
   (61, "Rain: Slight"), (63, "Rain: Moderate"), (65, "Rain: Heavy"),
   (71, "Snow: Slight"), (73, "Snow: Moderate"), (75, "Snow: Heavy"),
   (80, "Rain showers: Slight"), (81, "Rain showers: Moderate"),
   (82, "Rain showers: Violent")]

/-- `to_fahrenheit` (source lines 80-81): `c * 9 / 5 + 32`, over exact
rational arithmetic. -/
def to_fahrenheit (c : Rat) : Rat :=
  c * 9 / 5 + 32

/-- One row of the hourly table built at source lines 58-67: timestamp in the
fixed zone, temperature, precipitation probability, humidity, wind speed,
weather code. -/
structure HourlyRecord where
  time : Int
  temperature : Rat
  precip_prob : Int
  humidity : Int
  windspeed : Rat
  weathercode : Int
deriving DecidableEq, Repr

/-- The `hourly` object of the provider's JSON: parallel arrays, each possibly
omitted (`hourly.get(key, [])` defaults an omitted array to the empty list). -/
structure HourlyData where
  time : Option (List Int)
  temperature_2m : Option (List Rat)
  precipitation_probability : Option (List Int)
  relativehumidity_2m : Option (List Int)
  windspeed_10m : Option (List Rat)
  weathercode : Option (List Int)
deriving DecidableEq, Repr

/-- The empty `hourly` object: every array omitted.  This is the default used
by `data.get("hourly", \x7b\x7d)` when the provider omits `hourly` itself. -/
def emptyHourly : HourlyData :=
  { time := none, temperature_2m := none, precipitation_probability := none,
    relativehumidity_2m := none, windspeed_10m := none, weathercode := none }

/-- The `current_weather` object of the provider's JSON, passed through the
normalizer unchanged. -/
structure CurrentWeather where
  temperature : Rat
  weathercode : Int
deriving DecidableEq, Repr

/-- The parsed JSON body of a provider response. -/
structure ProviderResponse where
  hourly : Option HourlyData
  current_weather : Option CurrentWeather
deriving DecidableEq, Repr

/-- The value returned by `get_weather` (source line 77): the selected window
and the current-weather snapshot. -/
structure Payload where
  window : List HourlyRecord
  current : Option CurrentWeather
deriving DecidableEq, Repr

/-- The `hourly` object extracted from a response: `data.get("hourly", \x7b\x7d)`
(source line 52). -/
def hourlyOf (resp : ProviderResponse) : HourlyData :=
  resp.hourly.getD emptyHourly

/-- The positional zip of the parallel hourly arrays into rows, i.e. the
`pd.DataFrame` construction at source lines 58-67: it succeeds exactly when
all arrays have equal length, and raises (here: `none`) otherwise. -/
def buildRecords : List Int → List Rat → List Int → List Int → List Rat →
    List Int → Option (List HourlyRecord)
  | [], [], [], [], [], [] => some []
  | t :: ts, a :: tas, p :: pps, u :: hus, w :: was, c :: cds =>
      (buildRecords ts tas pps hus was cds).map
        (fun rest => { time := t, temperature := a, precip_prob := p,
                       humidity := u, windspeed := w, weathercode := c } :: rest)
  | _, _, _, _, _, _ => none

/-- The parallel hourly arrays of a response are index-aligned: every array
has the same length as the `time` array.  This is the implicit precondition of
the `pd.DataFrame` construction. -/
def alignedLengths (resp : ProviderResponse) : Prop :=
  ((hourlyOf resp).temperature_2m.getD []).length = ((hourlyOf resp).time.getD []).length ∧
  ((hourlyOf resp).precipitation_probability.getD []).length = ((hourlyOf resp).time.getD []).length ∧
  ((hourlyOf resp).relativehumidity_2m.getD []).length = ((hourlyOf resp).time.getD []).length ∧
  ((hourlyOf resp).windspeed_10m.getD []).length = ((hourlyOf resp).time.getD []).length ∧
  ((hourlyOf resp).weathercode.getD []).length = ((hourlyOf resp).time.getD []).length

instance (resp : ProviderResponse) : Decidable (alignedLengths resp) := by
  unfold alignedLengths
  exact inferInstance

/-- The window selection of `get_weather` (source lines 69-73):
`df_next = df[df["time"] >= now_kst].head(12)`, falling back to `df.head(12)`
when the selection is empty. -/
def selectWindow (records : List HourlyRecord) (now_kst : Int) : List HourlyRecord :=
  let df_next := (records.filter (fun r => now_kst ≤ r.time)).take 12
  if df_next.isEmpty then records.take 12 else df_next

/-- The body of `get_weather` after a successful HTTP round trip (source
lines 52-77): parse the hourly arrays into rows, select the window, and return
it with the `current_weather` object.  `none` models the `ValueError` raised
by `pd.DataFrame` on unequal array lengths. -/
def normalizeResp (resp : ProviderResponse) (now_kst : Int) : Option Payload :=
  (buildRecords ((hourlyOf resp).time.getD [])
      ((hourlyOf resp).temperature_2m.getD [])
      ((hourlyOf resp).precipitation_probability.getD [])
      ((hourlyOf resp).relativehumidity_2m.getD [])
      ((hourlyOf resp).windspeed_10m.getD [])
      ((hourlyOf resp).weathercode.getD [])).map
    (fun records => { window := selectWindow records now_kst,
                      current := resp.current_weather })

/-- Outcome of the single `requests.get` call (source line 48): either the
request itself fails (network failure or timeout raise inside `requests`), or
a response with an HTTP status code and a parsed JSON body arrives. -/
inductive HttpOutcome where
  | failure (cause : String)
  | response (status : Nat) (body : ProviderResponse)
deriving DecidableEq, Repr

/-- The exceptions that can escape `get_weather`: the fetch-related errors
raised by `requests.get` / `raise_for_status` (source lines 48-49), carrying
their cause, and the `ValueError` of the table construction. -/
inductive AppError where
  | fetch (cause : String)
  | lengthMismatch
deriving DecidableEq, Repr

/-- `get_weather` over one HTTP outcome (source lines 39-77): a raised
`requests` exception or a non-success status (`raise_for_status` raises for
status >= 400) fails with the fetch error; otherwise the body is normalized.
The second component counts the HTTP requests issued: always exactly one, as
the source performs a single `requests.get` with no retry. -/
def get_weather (outcome : HttpOutcome) (now_kst : Int) :
    Except AppError Payload × Nat :=
  match outcome with
  | .failure cause => (Except.error (AppError.fetch cause), 1)
  | .response status body =>
      if 400 ≤ status then
        (Except.error (AppError.fetch ("HTTP status " ++ toString status)), 1)
      else
        match normalizeResp body now_kst with
        | none => (Except.error AppError.lengthMismatch, 1)
        | some payload => (Except.ok payload, 1)

/-- Result of one rendering pass of `main`: either the payload is rendered, or
the exception is caught, `st.error` shows a message and the pass returns early
(source lines 117-121).  Both constructors are normal return values: the
process keeps running. -/
inductive RenderOutcome where
  | rendered (payload : Payload)
  | errorShown (msg : String)
deriving DecidableEq, Repr

/-- The message text of a caught exception, as interpolated into
`st.error(f"Failed to fetch weather: \x7be\x7d")`. -/
def errMessage : AppError → String
  | .fetch cause => cause
  | .lengthMismatch => "All arrays must be of the same length"

/-- The fetch-and-render step of `main` (source lines 117-121): call
`get_weather` inside `try`, catch any exception as a user-visible error
message and abort the pass, otherwise render the payload. -/
def mainRender (outcome : HttpOutcome) (now_kst : Int) : RenderOutcome :=
  match (get_weather outcome now_kst).1 with
  | .error e => .errorShown ("Failed to fetch weather: " ++ errMessage e)
  | .ok payload => .rendered payload

/-- The memoization key of `get_weather`: its argument tuple
`(lat, lon, refresh_count)` (source lines 38-39 and 118). -/
structure CacheKey where
  lat : Rat
  lon : Rat
  refresh_count : Nat
deriving DecidableEq, Repr

/-- Modelled from the spec: `st.cache_data(ttl=600)` is external library code
not present in the repository; per the spec it memoizes `get_weather` per
argument tuple for a bounded window of 600 seconds.  The design value of the
window. -/
def cacheTTL : Nat := 600

/-- Modelled from the spec: one entry of the memoization cache - key, the
time the value was stored, and the stored value. -/
structure CacheEntry where
  key : CacheKey
  storedAt : Nat
  value : Payload
deriving DecidableEq, Repr

/-- Modelled from the spec: an entry answers a lookup at time `now` only
within `cacheTTL` seconds of being stored. -/
def cacheValid (now : Nat) (e : CacheEntry) : Bool :=
  decide (now ≤ e.storedAt + cacheTTL)

/-- Modelled from the spec: look up a key in the cache at time `now`,
returning the stored value if a live entry with that exact key exists. -/
def cacheLookup (entries : List CacheEntry) (k : CacheKey) (now : Nat) :
    Option Payload :=
  (entries.find? (fun e => e.key == k && cacheValid now e)).map
    (fun e => e.value)

/-- Modelled from the spec: one memoized call of `get_weather`.  On a cache
hit the stored value is returned and no network call is made; on a miss the
freshly computed value (`computed`) is returned, stored, and a network call is
made.  The third component records whether a network call was issued. -/
def cachedFetch (entries : List CacheEntry) (k : CacheKey) (now : Nat)
    (computed : Payload) : Payload × List CacheEntry × Bool :=
  match cacheLookup entries k now with
  | some v => (v, entries, false)
  | none => (computed, { key := k, storedAt := now, value := computed } :: entries, true)

/-! Concrete inputs used by the witnesses. -/

/-- A record with the given timestamp and all other fields zero. -/
def mkRec (t : Int) : HourlyRecord :=
  { time := t, temperature := 0, precip_prob := 0, humidity := 0,
    windspeed := 0, weathercode := 0 }

/-- A 24-entry ascending hourly series with timestamps 0..23. -/
def recs24 : List HourlyRecord :=
  (List.range 24).map (fun i => mkRec i)

/-- A 14-entry hourly series with timestamps 0..13, all in the past relative
to now = 100. -/
def recsPast : List HourlyRecord :=
  (List.range 14).map (fun i => mkRec i)

/-- A provider response that omits the `hourly` object entirely. -/
def respOmitted : ProviderResponse :=
  { hourly := none, current_weather := none }

/-- A provider response whose `time` array has one entry while every other
hourly array is omitted (so defaults to the empty list): unequal lengths. -/
def respMismatch : ProviderResponse :=
  { hourly := some { emptyHourly with time := some [0] }, current_weather := none }

/-- A memoization key, and a second one differing only in the counter. -/
def keyA : CacheKey := { lat := 37, lon := 126, refresh_count := 0 }

/-- Same coordinates as `keyA`, incremented refresh counter. -/
def keyB : CacheKey := { lat := 37, lon := 126, refresh_count := 1 }

/-- A payload stored by the first fetch. -/
def payloadA : Payload := { window := [], current := none }

/-- A distinct payload, the would-be result of a recomputation. -/
def payloadB : Payload := { window := [mkRec 1], current := none }

/-! Helper lemmas about the window selection and the table construction. -/

/-- On a series sorted by ascending timestamp, selecting the rows with
timestamp at or after `now` is the same as dropping the leading run of
strictly earlier rows: the selection is a leading run of the forward rows. -/
theorem sorted_filter_eq_dropWhile (now : Int) (l : List HourlyRecord)
    (hs : List.Sorted (fun a b => a.time ≤ b.time) l) :
    l.filter (fun r => now ≤ r.time) = l.dropWhile (fun r => r.time < now) := by
  induction l with
  | nil => rfl
  | cons r t ih =>
      rw [List.sorted_cons] at hs
      by_cases hr : now ≤ r.time
      · have hnot : ¬ r.time < now := not_lt.mpr hr
        have hall : t.filter (fun x => now ≤ x.time) = t :=
          List.filter_eq_self.mpr
            (fun a ha => decide_eq_true (le_trans hr (hs.1 a ha)))
        simp [List.filter_cons, List.dropWhile_cons, hr, hnot, hall]
      · have hlt : r.time < now := not_le.mp hr
        simp [List.filter_cons, List.dropWhile_cons, hr, hlt, ih hs.2]

/-- The selected window is a sublist (order-preserving subsequence) of the
parsed series, in either branch of the selection. -/
theorem selectWindow_sublist_aux (records : List HourlyRecord) (now : Int) :
    (selectWindow records now).Sublist records := by
  simp only [selectWindow]
  split
  · exact List.take_sublist 12 records
  · exact (List.take_sublist 12 _).trans (List.filter_sublist records)

/-- The table construction succeeds exactly when every hourly array has the
same length as the time array. -/
theorem buildRecords_isSome_iff (ts : List Int) :
    ∀ (tas : List Rat) (pps hus : List Int) (was : List Rat) (cds : List Int),
      (buildRecords ts tas pps hus was cds).isSome = true ↔
        (tas.length = ts.length ∧ pps.length = ts.length ∧
         hus.length = ts.length ∧ was.length = ts.length ∧
         cds.length = ts.length) := by
  induction ts with
  | nil =>
      intro tas pps hus was cds
      cases tas <;> cases pps <;> cases hus <;> cases was <;> cases cds <;>
        simp [buildRecords]
  | cons t ts ih =>
      intro tas pps hus was cds
      cases tas <;> cases pps <;> cases hus <;> cases was <;> cases cds <;>
        simp [buildRecords, ih]

/-! Claim theorems. -/

/-- C7: the weathercode lookup is total over the integers: every code in the
closed set of known codes gets its fixed documented label, and every integer
outside that set - negatives and never-issued codes included - gets the
literal string "Unknown"; being a pure Lean function it has no side effects
and raises no errors. -/
theorem weathercode_total_lookup :
    (∀ p ∈ knownPairs, weathercode_to_text p.1 = p.2) ∧
    (∀ c : Int, c ∉ knownPairs.map Prod.fst → weathercode_to_text c = "Unknown") := by
  constructor
  · decide
  · intro c hc
    simp only [knownPairs, List.map_cons, List.map_nil, List.mem_cons,
      List.not_mem_nil, or_false, not_or] at hc
    obtain ⟨h0, h1, h2, h3, h45, h48, h51, h53, h55, h61, h63, h65, h71,
      h73, h75, h80, h81, h82⟩ := hc
    simp [weathercode_to_text, h0, h1, h2, h3, h45, h48, h51, h53, h55,
      h61, h63, h65, h71, h73, h75, h80, h81, h82]

/-- Witness for C7 at the unknown code 1000. -/
theorem weathercode_total_lookup_witness :
    (1000 : Int) ∉ knownPairs.map Prod.fst ∧ weathercode_to_text 1000 = "Unknown" :=
  ⟨by decide, weathercode_total_lookup.2 1000 (by decide)⟩

/-- C8: `to_fahrenheit` computes `c * 9 / 5 + 32` for every input, with no
validation and no error conditions; in particular it maps 0 to 32 and 100 to
212, and it is strictly (hence monotonically) increasing. -/
theorem to_fahrenheit_formula :
    (∀ c : Rat, to_fahrenheit c = c * 9 / 5 + 32) ∧
    to_fahrenheit 0 = 32 ∧ to_fahrenheit 100 = 212 ∧ StrictMono to_fahrenheit := by
  refine ⟨fun c => rfl, by norm_num [to_fahrenheit], by norm_num [to_fahrenheit], ?_⟩
  intro a b hab
  unfold to_fahrenheit
  linarith

/-- Witness for C8: strict monotonicity applied at 0 < 1. -/
theorem to_fahrenheit_formula_witness :
    (0 : Rat) < 1 ∧ to_fahrenheit 0 < to_fahrenheit 1 :=
  ⟨by norm_num, to_fahrenheit_formula.2.2.2 (by norm_num)⟩

/-- C10: in both the forward-selection branch and the fallback branch the
returned window is an order-preserving subsequence of the parsed hourly
series: every window record is a record of the series, in the same relative
order, never reordered, duplicated or synthesized. -/
theorem selectWindow_subsequence (records : List HourlyRecord) (now : Int) :
    (selectWindow records now).Sublist records :=
  selectWindow_sublist_aux records now

/-- C2: when no record of the parsed series has timestamp at or after `now`,
the normalizer falls back to the first 12 records of the full series,
unconditionally and without re-checking time ordering (no ordering hypothesis
is needed); for a series of at least 12 all-past entries this is exactly
entries 0 through 11. -/
theorem selectWindow_fallback_first12 (records : List HourlyRecord) (now : Int)
    (h : ∀ r ∈ records, r.time < now) :
    selectWindow records now = records.take 12 := by
  have hfil : records.filter (fun r => now ≤ r.time) = [] :=
    List.filter_eq_nil_iff.mpr
      (fun a ha => by simpa using not_le.mpr (h a ha))
  simp [selectWindow, hfil]

/-- Witness for C2: a 14-entry all-past series at now = 100 yields entries
0 through 11. -/
theorem selectWindow_fallback_first12_witness :
    (∀ r ∈ recsPast, r.time < 100) ∧
    selectWindow recsPast 100 = recsPast.take 12 ∧
    recsPast.take 12 = (List.range 12).map (fun i => mkRec i) :=
  ⟨by decide, selectWindow_fallback_first12 recsPast 100 (by decide), by decide⟩

/-- C3: for every provider series sorted by ascending timestamp (as the
provider delivers its hourly arrays), the selected window - from either
branch - has length at most 12 and is ordered non-decreasingly in time. -/
theorem selectWindow_length_sorted (records : List HourlyRecord) (now : Int)
    (hs : List.Sorted (fun a b => a.time ≤ b.time) records) :
    (selectWindow records now).length ≤ 12 ∧
      List.Sorted (fun a b => a.time ≤ b.time) (selectWindow records now) := by
  constructor
  · simp only [selectWindow]
    split
    · exact List.length_take_le 12 records
    · exact List.length_take_le 12 _
  · exact List.Pairwise.sublist (selectWindow_sublist_aux records now) hs

/-- Witness for C3 on the concrete 24-entry ascending series. -/
theorem selectWindow_length_sorted_witness :
    List.Sorted (fun a b : HourlyRecord => a.time ≤ b.time) recs24 ∧
    ((selectWindow recs24 3).length ≤ 12 ∧
      List.Sorted (fun a b : HourlyRecord => a.time ≤ b.time) (selectWindow recs24 3)) :=
  ⟨by decide, selectWindow_length_sorted recs24 3 (by decide)⟩

/-- C1: for every provider series sorted by ascending timestamp that contains
at least one record with timestamp at or after `now`, the normalizer returns
the leading run of records with timestamp at or after `now` (the series with
its strictly-earlier leading run dropped), truncated to at most 12, and the
result is in ascending time order. -/
theorem selectWindow_forward_run (records : List HourlyRecord) (now : Int)
    (hs : List.Sorted (fun a b => a.time ≤ b.time) records)
    (hex : ∃ r ∈ records, now ≤ r.time) :
    selectWindow records now = (records.dropWhile (fun r => r.time < now)).take 12 ∧
      List.Sorted (fun a b => a.time ≤ b.time) (selectWindow records now) := by
  have hfd := sorted_filter_eq_dropWhile now records hs
  have hne : records.filter (fun r => now ≤ r.time) ≠ [] := by
    obtain ⟨r, hr, hle⟩ := hex
    intro hnil
    have := List.filter_eq_nil_iff.mp hnil r hr
    simp [hle] at this
  constructor
  · simp only [selectWindow]
    rw [if_neg]
    · rw [hfd]
    · simp [List.isEmpty_iff, List.take_eq_nil_iff, hne]
  · exact List.Pairwise.sublist (selectWindow_sublist_aux records now) hs

/-- Witness for C1: on the 24-entry ascending series with timestamps 0..23 and
now = 5, the selection is exactly entries 5 through 16. -/
theorem selectWindow_forward_run_witness :
    List.Sorted (fun a b : HourlyRecord => a.time ≤ b.time) recs24 ∧
    (∃ r ∈ recs24, (5 : Int) ≤ r.time) ∧
    (selectWindow recs24 5 = (recs24.dropWhile (fun r => r.time < 5)).take 12 ∧
      List.Sorted (fun a b : HourlyRecord => a.time ≤ b.time) (selectWindow recs24 5)) ∧
    (recs24.dropWhile (fun r => r.time < 5)).take 12 = (recs24.drop 5).take 12 :=
  ⟨by decide, by decide, selectWindow_forward_run recs24 5 (by decide) (by decide), by decide⟩

/-- C4: a provider response whose expected hourly arrays are omitted (or
empty) is treated as carrying empty sequences: the normalizer returns an
empty window - together with the response's current-weather object - rather
than raising. -/
theorem normalize_empty_arrays (resp : ProviderResponse) (now : Int)
    (h1 : (hourlyOf resp).time.getD [] = [])
    (h2 : (hourlyOf resp).temperature_2m.getD [] = [])
    (h3 : (hourlyOf resp).precipitation_probability.getD [] = [])
    (h4 : (hourlyOf resp).relativehumidity_2m.getD [] = [])
    (h5 : (hourlyOf resp).windspeed_10m.getD [] = [])
    (h6 : (hourlyOf resp).weathercode.getD [] = []) :
    normalizeResp resp now = some { window := [], current := resp.current_weather } := by
  unfold normalizeResp
  rw [h1, h2, h3, h4, h5, h6]
  simp [buildRecords, selectWindow]

/-- Witness for C4: the response omitting `hourly` entirely yields the empty
window without raising. -/
theorem normalize_empty_arrays_witness :
    (hourlyOf respOmitted).time.getD [] = [] ∧
    normalizeResp respOmitted 0 = some { window := [], current := none } :=
  ⟨rfl, normalize_empty_arrays respOmitted 0 rfl rfl rfl rfl rfl rfl⟩

/-- C9: when the hourly arrays supplied to the positional zip have unequal
lengths - such as a non-empty time array alongside an omitted array defaulting
to the empty list - the table construction raises and the normalizer returns
no window at all: it neither truncates to the shortest array nor pads. -/
theorem normalize_mismatch_raises (resp : ProviderResponse) (now : Int)
    (h : ¬ alignedLengths resp) : normalizeResp resp now = none := by
  cases heq : buildRecords ((hourlyOf resp).time.getD [])
      ((hourlyOf resp).temperature_2m.getD [])
      ((hourlyOf resp).precipitation_probability.getD [])
      ((hourlyOf resp).relativehumidity_2m.getD [])
      ((hourlyOf resp).windspeed_10m.getD [])
      ((hourlyOf resp).weathercode.getD []) with
  | none => unfold normalizeResp; rw [heq]; rfl
  | some recs =>
      exfalso
      apply h
      have hsome : (buildRecords ((hourlyOf resp).time.getD [])
          ((hourlyOf resp).temperature_2m.getD [])
          ((hourlyOf resp).precipitation_probability.getD [])
          ((hourlyOf resp).relativehumidity_2m.getD [])
          ((hourlyOf resp).windspeed_10m.getD [])
          ((hourlyOf resp).weathercode.getD [])).isSome = true := by
        rw [heq]; rfl
      rw [buildRecords_isSome_iff] at hsome
      unfold alignedLengths
      exact hsome

/-- Witness for C9: one timestamp, every other array omitted - the normalizer
returns nothing. -/
theorem normalize_mismatch_raises_witness :
    ¬ alignedLengths respMismatch ∧ normalizeResp respMismatch 0 = none :=
  ⟨by decide, normalize_mismatch_raises respMismatch 0 (by decide)⟩

/-- C5: whenever the HTTP request fails (network failure or timeout) or the
response has a non-success status (400 or above, where `raise_for_status`
raises), the fetcher fails with an error carrying the underlying cause while
issuing exactly one request (no retry); `main` catches the failure once,
surfaces a visible error message, aborts the rendering pass, and - since
`mainRender` returns a value - the process keeps running.  On a raised request
exception the error carries that exact cause. -/
theorem fetch_error_no_retry_caught (outcome : HttpOutcome) (now : Int)
    (h : (∃ c, outcome = HttpOutcome.failure c) ∨
         ∃ s b, outcome = HttpOutcome.response s b ∧ 400 ≤ s) :
    (∃ c, (get_weather outcome now).1 = Except.error (AppError.fetch c)) ∧
    (get_weather outcome now).2 = 1 ∧
    (∃ m, mainRender outcome now = RenderOutcome.errorShown m) ∧
    (∀ c, outcome = HttpOutcome.failure c →
      (get_weather outcome now).1 = Except.error (AppError.fetch c)) := by
  obtain ⟨c, rfl⟩ | ⟨s, b, rfl, hsl⟩ := h
  · exact ⟨⟨c, rfl⟩, rfl, ⟨_, rfl⟩, fun c' hc' => by cases hc'; rfl⟩
  · have hge : get_weather (HttpOutcome.response s b) now =
        (Except.error (AppError.fetch ("HTTP status " ++ toString s)), 1) := by
      simp [get_weather, hsl]
    refine ⟨⟨"HTTP status " ++ toString s, by rw [hge]⟩, by rw [hge], ?_, ?_⟩
    · refine ⟨"Failed to fetch weather: " ++ ("HTTP status " ++ toString s), ?_⟩
      simp [mainRender, hge, errMessage]
    · intro c' hc'
      exact absurd hc' (by simp)

/-- Witness for C5 at a request that times out. -/
theorem fetch_error_no_retry_caught_witness :
    ((∃ c, HttpOutcome.failure "timeout" = HttpOutcome.failure c) ∨
      ∃ s b, HttpOutcome.failure "timeout" = HttpOutcome.response s b ∧ 400 ≤ s) ∧
    ((∃ c, (get_weather (HttpOutcome.failure "timeout") 0).1 =
        Except.error (AppError.fetch c)) ∧
     (get_weather (HttpOutcome.failure "timeout") 0).2 = 1 ∧
     (∃ m, mainRender (HttpOutcome.failure "timeout") 0 = RenderOutcome.errorShown m) ∧
     (∀ c, HttpOutcome.failure "timeout" = HttpOutcome.failure c →
       (get_weather (HttpOutcome.failure "timeout") 0).1 =
         Except.error (AppError.fetch c))) :=
  ⟨Or.inl ⟨"timeout", rfl⟩,
   fetch_error_no_retry_caught (HttpOutcome.failure "timeout") 0 (Or.inl ⟨"timeout", rfl⟩)⟩

/-- C6: starting from an empty cache, a first fetch at time `t0` issues a
network call; a second fetch with the identical key inside the 600-second
window returns the memoized payload (not the recomputation) and issues no
network call; a fetch with the same coordinates but a changed refresh counter
issues a network call, because the counter is a component of the key. -/
theorem cache_memoization (k k2 : CacheKey) (t0 t1 : Nat) (v v2 v3 : Payload)
    (hwin : t1 ≤ t0 + cacheTTL)
    (_hlat : k2.lat = k.lat) (_hlon : k2.lon = k.lon)
    (hrc : k2.refresh_count ≠ k.refresh_count) :
    (cachedFetch [] k t0 v).2.2 = true ∧
    (cachedFetch (cachedFetch [] k t0 v).2.1 k t1 v2).1 = v ∧
    (cachedFetch (cachedFetch [] k t0 v).2.1 k t1 v2).2.2 = false ∧
    (cachedFetch (cachedFetch [] k t0 v).2.1 k2 t1 v3).2.2 = true := by
  have hne : (k == k2) = false :=
    beq_eq_false_iff_ne.mpr (fun hk => hrc (by rw [hk]))
  refine ⟨rfl, ?_, ?_, ?_⟩
  · simp [cachedFetch, cacheLookup, cacheValid, List.find?, hwin]
  · simp [cachedFetch, cacheLookup, cacheValid, List.find?, hwin]
  · simp [cachedFetch, cacheLookup, cacheValid, List.find?, hne]

/-- Witness for C6 with concrete Seoul-like keys, t0 = 0, t1 = 600. -/
theorem cache_memoization_witness :
    (600 : Nat) ≤ 0 + cacheTTL ∧
    keyB.refresh_count ≠ keyA.refresh_count ∧
    ((cachedFetch [] keyA 0 payloadA).2.2 = true ∧
     (cachedFetch (cachedFetch [] keyA 0 payloadA).2.1 keyA 600 payloadB).1 = payloadA ∧
     (cachedFetch (cachedFetch [] keyA 0 payloadA).2.1 keyA 600 payloadB).2.2 = false ∧
     (cachedFetch (cachedFetch [] keyA 0 payloadA).2.1 keyB 600 payloadB).2.2 = true) :=
  ⟨by decide, by decide,
   cache_memoization keyA keyB 0 600 payloadA payloadB payloadB (by decide)
     rfl rfl (by decide)⟩
